import Mathlib

/-!
Shallow embedding of the execution-orchestration core of
`src/jupyterhub/jupyterhub-server/set_params.py`.

Conventions of the embedding:
* A notebook cell keeps only the fields the core inspects: `cell_type`,
  `execution_count` (Python `None` ↦ `Option.none`) and the `outputs` list
  (whose element content is irrelevant to the core, so elements are strings).
* Timestamps are integers counted in whole seconds, so Python's
  `int((completed_at - started_at).total_seconds())` is exactly subtraction.
* Filesystem reads observed while papermill is writing are a `FileObs`:
  the file may be absent, unreadable (parse error / mid-write), or a parsed
  notebook.  A polling loop is a function over the list of observations it
  would make at its successive ticks; an empty list models a non-positive
  timeout (the Python `while` body never runs).
* The external tool invocation `pm.execute_notebook` is the sole source of
  nondeterminism and is passed in as a `ToolOutcome` (success with the full
  result, or an exception together with whatever was left in the temp file).
* `os.chown`/`os.chmod`/`os.replace`/`os.remove` are modelled as succeeding;
  the spec's filesystem-failure taxonomy is out of the claims' scope.
-/

/-- One notebook cell, restricted to the fields the core reads. -/
structure Cell where
  cell_type : String
  execution_count : Option Int
  outputs : List String
  deriving DecidableEq, Repr

/-- A parsed notebook: the ordered cell list. -/
structure Notebook where
  cells : List Cell
  deriving DecidableEq, Repr

/-- Per-cell executed test of `check_first_cell_execution` (set_params.py:217):
`cell.get('execution_count') is not None or len(cell.get('outputs', [])) > 0`. -/
def firstRuleExecuted (c : Cell) : Bool :=
  c.execution_count.isSome || decide (0 < c.outputs.length)

/-- Per-cell executed test of `check_last_cell_execution` (set_params.py:249-253):
`execution_count is not None and execution_count != 0`, else `len(outputs) > 0`. -/
def lastRuleExecuted (c : Cell) : Bool :=
  (match c.execution_count with
   | some n => decide (n ≠ 0)
   | none => false)
  || decide (0 < c.outputs.length)

/-- Per-cell executed test of the sync failure-path inspection
(set_params.py:875): `cell.get('execution_count') is not None or
len(cell.get('outputs', [])) > 0`. -/
def syncInspectExecuted (c : Cell) : Bool :=
  c.execution_count.isSome || decide (0 < c.outputs.length)

/-- Modelled from the spec (§3): a unit counts as executed when its counter is
present and non-zero, or its outputs list is non-empty.  This is the spec-side
rule that claim C8 says every detection site implements. -/
def spec_unitExecuted (c : Cell) : Bool :=
  (match c.execution_count with
   | some n => decide (n ≠ 0)
   | none => false)
  || decide (0 < c.outputs.length)

/-- One observation of the output file at a polling tick. -/
inductive FileObs where
  | absent
  | unreadable
  | content (nb : Notebook)
  deriving DecidableEq, Repr

/-- One loop iteration of `check_first_cell_execution` (set_params.py:210-221):
absent or unreadable files continue the wait; a parsed notebook returns `True`
as soon as some code cell passes `firstRuleExecuted`, otherwise the wait
continues.  `none` means "keep polling". -/
def firstPollStep (o : FileObs) : Option Bool :=
  match o with
  | .absent => none
  | .unreadable => none
  | .content nb =>
      if nb.cells.any (fun c => c.cell_type == "code" && firstRuleExecuted c) then
        some true
      else
        none

/-- `check_first_cell_execution` (set_params.py:204-224) over the list of
observations made at its polling ticks; exhausting the list is the timeout. -/
def check_first_cell_execution : List FileObs → Bool
  | [] => false
  | o :: rest =>
      match firstPollStep o with
      | some b => b
      | none => check_first_cell_execution rest

/-- One loop iteration of `check_last_cell_execution` (set_params.py:234-258):
no code cells returns `False` at once; an executed last code cell returns
`True`; otherwise (also absent/unreadable) the wait continues. -/
def lastPollStep (o : FileObs) : Option Bool :=
  match o with
  | .absent => none
  | .unreadable => none
  | .content nb =>
      match (nb.cells.filter (fun c => c.cell_type == "code")).getLast? with
      | none => some false
      | some lastCell =>
          if lastRuleExecuted lastCell then some true else none

/-- `check_last_cell_execution` (set_params.py:226-262) over the observation
list of its polling ticks. -/
def check_last_cell_execution : List FileObs → Bool
  | [] => false
  | o :: rest =>
      match lastPollStep o with
      | some b => b
      | none => check_last_cell_execution rest

/-- Modelled from the spec (§3 detection rule): a notebook is fully executed
when it has at least one code cell and every code cell shows execution. -/
def spec_fullyExecuted (nb : Notebook) : Prop :=
  (nb.cells.filter (fun c => c.cell_type == "code")) ≠ [] ∧
  ∀ c ∈ nb.cells.filter (fun c => c.cell_type == "code"), spec_unitExecuted c = true

instance (nb : Notebook) : Decidable (spec_fullyExecuted nb) := by
  unfold spec_fullyExecuted
  infer_instance

/-- The filesystem facts the path guard consults: `os.path.exists`,
`os.path.isfile` and `os.path.realpath` (canonicalization). -/
structure FS where
  pathExists : String → Bool
  isfile : String → Bool
  realpath : String → String

/-- Username inference from the path (set_params.py:593-598 and 786-791):
start from `"unknown"`; when `"/home/"` occurs in the path, take the path
segment right after its first occurrence.  Python's `str.split` never returns
an empty list, mirrored by `String.splitOn`. -/
def extract_username (input_path : String) : String :=
  match input_path.splitOn "/home/" with
  | _ :: afterHome :: _ =>
      match afterHome.splitOn "/" with
      | seg :: _ => seg
      | [] => "unknown"
  | _ => "unknown"

/-- Result of the inline path validation shared verbatim by `/execute`
(set_params.py:583-598) and `/execute2` (set_params.py:776-791). -/
inductive GuardResult where
  | ok (username : String)
  | notFound
  | forbidden
  deriving DecidableEq, Repr

/-- The inline path validation of both in-place endpoints
(set_params.py:583-598, 776-791).  404 when the path is missing or not a
regular file.  A Python-truthy (non-empty) `req.username` triggers the
sandbox check on `os.path.realpath` of both the path and `/home/<username>`;
otherwise the username is inferred from the path and no sandbox check runs.
An empty-string `req.username` is falsy in Python (`req.username or
"unknown"`, `if req.username:`), so it behaves like `None`. -/
def validate_input_path (fs : FS) (req_username : Option String)
    (input_path : String) : GuardResult :=
  if !(fs.pathExists input_path) || !(fs.isfile input_path) then
    .notFound
  else
    match req_username with
    | some u =>
        if u = "" then
          .ok (extract_username input_path)
        else
          let user_home := fs.realpath ("/home/" ++ u)
          let real_input := fs.realpath input_path
          if !(real_input.startsWith (user_home ++ "/")) && real_input ≠ user_home then
            .forbidden
          else
            .ok u
    | none => .ok (extract_username input_path)

/-- Owner, group and permission bits of a file (`os.stat` fields
`st_uid`, `st_gid`, `st_mode`). -/
structure FileMeta where
  uid : Nat
  gid : Nat
  mode : Nat
  deriving DecidableEq, Repr

/-- Content of a file as the failure-path inspection distinguishes it:
empty (`os.path.getsize == 0`), non-empty but not a loadable notebook
(json.load or the cells access raises), or a parsed notebook. -/
inductive Content where
  | empty
  | invalid
  | notebook (nb : Notebook)
  deriving DecidableEq, Repr

/-- Outcome of the external `pm.execute_notebook` call: success leaves the
fully executed result in the temp file, failure raises with a message and
leaves arbitrary content in the temp file.  `tmpMeta` is whatever
owner/group/mode the tool's process gave the temp file; the core must
override it. -/
inductive ToolOutcome where
  | success (result : Notebook) (tmpMeta : FileMeta)
  | failure (err : String) (tmpContent : Content) (tmpMeta : FileMeta)
  deriving DecidableEq, Repr

/-- One `NotebookExecution` row, restricted to the fields the core writes. -/
structure ExecRecord where
  id : Nat
  username : String
  input_path : String
  output_path : String
  status : String
  error_message : Option String
  execution_time_seconds : Option Int
  started_at : Int
  completed_at : Option Int
  deriving DecidableEq, Repr

/-- Body of the `/execute2` response, restricted to the fields the claims
inspect.  The success response of the endpoint has no `notebook_updated`
key at all, modelled as `none`. -/
structure SyncResponse where
  status : String
  execution_id : Nat
  error_message : Option String
  notebook_updated : Option Bool
  deriving DecidableEq, Repr

/-- Everything observable about one `/execute2` call past the guard:
the JSON response, the successive committed states of the execution row,
the final content and metadata of `input_path`, every value the content of
`input_path` takes during the call (it changes only by `os.replace`), and
whether the mkstemp temp file is still on disk afterwards. -/
structure SyncOutcome where
  response : SyncResponse
  recordTrace : List ExecRecord
  finalContent : Content
  finalMeta : FileMeta
  contentHistory : List Content
  tmpRemains : Bool
  deriving DecidableEq, Repr

/-- `/execute2` after its guard (set_params.py:793-923).  `origContent` and
`origMeta` are the state of `input_path` when the call starts; `tmp_path` is
the `tempfile.mkstemp` sibling; `t0`/`t1` are the `datetime.utcnow()` readings
at record creation and at completion; `tool` is the papermill outcome.

Success path (819-861): chown/chmod the temp file to the recorded bits, then
`os.replace(tmp_path, input_path)`; the row goes to `success` with
`output_path` updated to `input_path`.

Failure path (863-923): when the temp file is non-empty and loads as a
notebook with some code cell passing `syncInspectExecuted`, it is chowned,
chmodded and `os.replace`d over `input_path` (`notebook_updated = True`);
a loadable notebook without such a cell is removed; an unreadable temp file
hits the `cleanup_error` handler and is removed; an **empty** temp file
skips the whole `if os.path.exists and getsize > 0` block, so it is left on
disk.  The row then goes to `failed` with the error message. -/
def sync_after_guard (execId : Nat) (username input_path tmp_path : String)
    (origContent : Content) (origMeta : FileMeta) (tool : ToolOutcome)
    (t0 t1 : Int) : SyncOutcome :=
  let rec0 : ExecRecord :=
    { id := execId
      username := username
      input_path := input_path
      output_path := tmp_path
      status := "running"
      error_message := none
      execution_time_seconds := none
      started_at := t0
      completed_at := none }
  match tool with
  | .success result tmpMeta =>
      let tmpMetaAfter : FileMeta :=
        { tmpMeta with uid := origMeta.uid, gid := origMeta.gid, mode := origMeta.mode }
      let rec1 : ExecRecord :=
        { rec0 with
            status := "success"
            output_path := input_path
            completed_at := some t1
            execution_time_seconds := some (t1 - t0) }
      { response :=
          { status := "success"
            execution_id := execId
            error_message := none
            notebook_updated := none }
        recordTrace := [rec0, rec1]
        finalContent := .notebook result
        finalMeta := tmpMetaAfter
        contentHistory := [origContent, .notebook result]
        tmpRemains := false }
  | .failure err tmpContent tmpMeta =>
      let notebook_has_outputs : Bool :=
        match tmpContent with
        | .notebook nb =>
            nb.cells.any (fun c => c.cell_type == "code" && syncInspectExecuted c)
        | _ => false
      let tmpMetaAfter : FileMeta :=
        { tmpMeta with uid := origMeta.uid, gid := origMeta.gid, mode := origMeta.mode }
      let rec1 : ExecRecord :=
        { rec0 with
            status := "failed"
            error_message := some err
            completed_at := some t1
            execution_time_seconds := some (t1 - t0) }
      { response :=
          { status := "failed"
            execution_id := execId
            error_message := some err
            notebook_updated := some notebook_has_outputs }
        recordTrace := [rec0, rec1]
        finalContent :=
          match tmpContent with
          | .notebook nb => if notebook_has_outputs then .notebook nb else origContent
          | _ => origContent
        finalMeta := if notebook_has_outputs then tmpMetaAfter else origMeta
        contentHistory :=
          match tmpContent with
          | .notebook nb =>
              if notebook_has_outputs then [origContent, .notebook nb] else [origContent]
          | _ => [origContent]
        tmpRemains := tmpContent = .empty }

/-- Guard failures of the in-place endpoints (HTTPException status codes). -/
inductive HttpError where
  | notFound
  | forbidden
  deriving DecidableEq, Repr

/-- The full `/execute2` endpoint `execute_notebook_sync`
(set_params.py:731-928): the inline guard runs before any temp file, stat
or database row is created; a guard failure raises and nothing else
happens. -/
def execute_notebook_sync (fs : FS) (req_username : Option String)
    (execId : Nat) (input_path tmp_path : String)
    (origContent : Content) (origMeta : FileMeta) (tool : ToolOutcome)
    (t0 t1 : Int) : Except HttpError SyncOutcome :=
  match validate_input_path fs req_username input_path with
  | .notFound => .error .notFound
  | .forbidden => .error .forbidden
  | .ok username =>
      .ok (sync_after_guard execId username input_path tmp_path
            origContent origMeta tool t0 t1)

/-- Execution rows committed by a sync call: none when the guard raised. -/
def syncRecords : Except HttpError SyncOutcome → List ExecRecord
  | .error _ => []
  | .ok o => o.recordTrace

/-- What one run of the background worker leaves behind: the committed row
states after the initial `pending` row, the final content and metadata of
`input_path`, the content history of `input_path`, and whether the temp
file survives. -/
structure WorkerOutcome where
  recordUpdates : List ExecRecord
  finalContent : Content
  finalMeta : FileMeta
  contentHistory : List Content
  tmpRemains : Bool
  deriving DecidableEq, Repr

/-- The `/execute` background worker `execute_inplace_background`
(set_params.py:629-690).  It first commits the row as `running` with a fresh
`started_at = tw`.  On papermill success it chowns/chmods the temp file to
the recorded bits and `os.replace`s it over `input_path`, then commits
`success` with `output_path` updated to `input_path`.  On papermill failure
it removes the temp file whenever it exists — regardless of its content, so
no partial result is ever installed — and commits `failed` with the error
message; `input_path` is untouched. -/
def execute_inplace_background (rec0 : ExecRecord) (input_path : String)
    (origContent : Content) (origMeta : FileMeta) (tool : ToolOutcome)
    (tw t1 : Int) : WorkerOutcome :=
  let recRunning : ExecRecord := { rec0 with status := "running", started_at := tw }
  match tool with
  | .success result tmpMeta =>
      let tmpMetaAfter : FileMeta :=
        { tmpMeta with uid := origMeta.uid, gid := origMeta.gid, mode := origMeta.mode }
      let recDone : ExecRecord :=
        { recRunning with
            status := "success"
            output_path := input_path
            completed_at := some t1
            execution_time_seconds := some (t1 - tw) }
      { recordUpdates := [recRunning, recDone]
        finalContent := .notebook result
        finalMeta := tmpMetaAfter
        contentHistory := [origContent, .notebook result]
        tmpRemains := false }
  | .failure err _ _ =>
      let recDone : ExecRecord :=
        { recRunning with
            status := "failed"
            error_message := some err
            completed_at := some t1
            execution_time_seconds := some (t1 - tw) }
      { recordUpdates := [recRunning, recDone]
        finalContent := origContent
        finalMeta := origMeta
        contentHistory := [origContent]
        tmpRemains := false }

/-- Body of the `/execute` response, restricted to the fields the claims
inspect.  It has no error or failure field of any kind. -/
structure AsyncResponse where
  status : String
  execution_id : Nat
  message : String
  deriving DecidableEq, Repr

/-- Everything observable about one `/execute` call past the guard,
including what its background worker eventually does. -/
structure AsyncOutcome where
  response : AsyncResponse
  recordTrace : List ExecRecord
  finalContent : Content
  finalMeta : FileMeta
  contentHistory : List Content
  tmpRemains : Bool
  deriving DecidableEq, Repr

/-- The `/execute` endpoint `execute_user_notebook` (set_params.py:543-728):
inline guard, mkstemp, stat, commit of the row as `pending` (`started_at =
t0`, `output_path = tmp_path`), spawn of `execute_inplace_background`, then
a bounded `check_first_cell_execution` wait on the temp path whose result
picks one of two fixed messages; the response always reports `started` and
the row id.  `pollTrace` is what the caller-thread poll observes; the
worker's outcome is folded in to describe the eventual state. -/
def execute_user_notebook (fs : FS) (req_username : Option String)
    (execId : Nat) (input_path tmp_path : String)
    (origContent : Content) (origMeta : FileMeta) (tool : ToolOutcome)
    (t0 tw t1 : Int) (pollTrace : List FileObs) : Except HttpError AsyncOutcome :=
  match validate_input_path fs req_username input_path with
  | .notFound => .error .notFound
  | .forbidden => .error .forbidden
  | .ok username =>
      let rec0 : ExecRecord :=
        { id := execId
          username := username
          input_path := input_path
          output_path := tmp_path
          status := "pending"
          error_message := none
          execution_time_seconds := none
          started_at := t0
          completed_at := none }
      let worker := execute_inplace_background rec0 input_path origContent origMeta tool tw t1
      let first_cell_executed := check_first_cell_execution pollTrace
      let message :=
        if !first_cell_executed then
          "Notebook execution started but first cell not yet completed. Check status URL for progress."
        else
          "Notebook execution started successfully. First cell executed. Check status URL for progress."
      .ok
        { response := { status := "started", execution_id := execId, message := message }
          recordTrace := rec0 :: worker.recordUpdates
          finalContent := worker.finalContent
          finalMeta := worker.finalMeta
          contentHistory := worker.contentHistory
          tmpRemains := worker.tmpRemains }

/-- Execution rows committed by an async call: none when the guard raised. -/
def asyncRecords : Except HttpError AsyncOutcome → List ExecRecord
  | .error _ => []
  | .ok o => o.recordTrace

/-- Row created by `/execute-notebook` (set_params.py:482-493): status
`pending`, fixed username `api_user`, caller-chosen output path. -/
def execute_notebook_record0 (execId : Nat) (input_path output_path : String)
    (t0 : Int) : ExecRecord :=
  { id := execId
    username := "api_user"
    input_path := input_path
    output_path := output_path
    status := "pending"
    error_message := none
    execution_time_seconds := none
    started_at := t0
    completed_at := none }

/-- The `/execute-notebook` worker `execute_notebook_background`
(set_params.py:150-202): commit `running` with a fresh `started_at = tw`,
run papermill to the caller-chosen output path (no swap, `output_path`
never changes), then commit `success`, or `failed` with the error message. -/
def execute_notebook_background (rec0 : ExecRecord) (tool : ToolOutcome)
    (tw t1 : Int) : List ExecRecord :=
  let recRunning : ExecRecord := { rec0 with status := "running", started_at := tw }
  match tool with
  | .success _ _ =>
      [recRunning,
       { recRunning with
           status := "success"
           completed_at := some t1
           execution_time_seconds := some (t1 - tw) }]
  | .failure err _ _ =>
      [recRunning,
       { recRunning with
           status := "failed"
           error_message := some err
           completed_at := some t1
           execution_time_seconds := some (t1 - tw) }]

/-- Order of the state machine `pending → running → terminal` for stating
monotonicity of committed status sequences. -/
def statusRank : String → Nat
  | "pending" => 0
  | "running" => 1
  | "success" => 2
  | "failed" => 2
  | _ => 9

/-- A committed record trace is strictly monotone along the state machine:
each commit strictly advances the state, so no state is ever revisited and
terminal states are never left. -/
def monotoneTrace (tr : List ExecRecord) : Prop :=
  List.Chain' (fun a b => statusRank a.status < statusRank b.status) tr

/-- Terminal statuses of the state machine. -/
def terminalStatus (s : String) : Prop :=
  s = "success" ∨ s = "failed"

/-- A two-cell notebook before any execution. -/
def nbUnrun : Notebook := ⟨[⟨"code", none, []⟩, ⟨"code", none, []⟩]⟩

/-- The same notebook fully executed. -/
def nbDone : Notebook := ⟨[⟨"code", some 1, ["out1"]⟩, ⟨"code", some 2, ["out2"]⟩]⟩

/-- The same notebook after failing in cell 1: the first cell executed and
holds the captured traceback, the second never ran. -/
def nbHalf : Notebook := ⟨[⟨"code", some 1, ["traceback"]⟩, ⟨"code", none, []⟩]⟩

/-- A notebook with no code cells at all. -/
def nbNoCode : Notebook := ⟨[⟨"markdown", none, []⟩]⟩

/-- Owner/group/mode of the input file before execution (alice, 0o644). -/
def meta0 : FileMeta := ⟨1000, 1000, 420⟩

/-- Owner/group/mode the tool's process leaves on the temp file (root, 0o600). -/
def metaTool : FileMeta := ⟨0, 0, 384⟩

/-- A filesystem where every path is an existing regular file and
canonicalization is the identity. -/
def fsOpen : FS := ⟨fun _ => true, fun _ => true, fun p => p⟩

/-- A filesystem where no path exists. -/
def fsAbsent : FS := ⟨fun _ => false, fun _ => false, fun p => p⟩

/-- A filesystem where `/home/alice/link.ipynb` is a symlink whose canonical
target lies outside `/home/alice`. -/
def fsEscape : FS :=
  ⟨fun _ => true, fun _ => true,
   fun p => if p = "/home/alice/link.ipynb" then "/etc/shadow" else p⟩

/-- C8 counterexample: a code cell whose execution counter is present but
zero and whose outputs are empty is classified as executed by the
first-cell rule (`execution_count is not None`), yet the claimed rule
(counter present **and non-zero**, or outputs non-empty) classifies it as
not executed — so not every detection site implements the claimed rule. -/
theorem C8_detection_rule_counterexample :
    firstRuleExecuted ⟨"code", some 0, []⟩ = true ∧
    spec_unitExecuted ⟨"code", some 0, []⟩ = false := by
  decide

/-- C8 (amended): the last-cell Progress Monitor variant implements exactly
the counter-present-and-non-zero-or-outputs-non-empty rule; the first-cell
variant and the sync failure-path inspection agree with each other but
classify a unit as executed exactly when its counter is present (any value,
zero included) or its outputs list is non-empty. -/
theorem C8_detection_rules (c : Cell) :
    lastRuleExecuted c = spec_unitExecuted c ∧
    syncInspectExecuted c = firstRuleExecuted c ∧
    (firstRuleExecuted c = true ↔ c.execution_count ≠ none ∨ c.outputs ≠ []) := by
  refine ⟨rfl, rfl, ?_⟩
  simp [firstRuleExecuted, Option.isSome_iff_ne_none, List.length_pos]

/-- C9: on an existing, static, fully-executed document the first-cell
variant of the Progress Monitor returns true at its very first poll, whatever
polling budget remains; on an existing document with zero code cells the
last-cell variant returns false at its very first poll. -/
theorem C9_monitor_immediate (nb nbZ : Notebook) (rest restZ : List FileObs)
    (hfull : spec_fullyExecuted nb)
    (hzero : nbZ.cells.filter (fun c => c.cell_type == "code") = []) :
    check_first_cell_execution (.content nb :: rest) = true ∧
    check_last_cell_execution (.content nbZ :: restZ) = false := by
  constructor
  · obtain ⟨hne, hall⟩ := hfull
    obtain ⟨c, hc⟩ := List.exists_mem_of_ne_nil _ hne
    have hcf := List.mem_filter.mp hc
    obtain ⟨hmem, htype⟩ := hcf
    have hexec := hall c hc
    have hfirst : firstRuleExecuted c = true := by
      unfold spec_unitExecuted at hexec
      unfold firstRuleExecuted
      cases h : c.execution_count with
      | some n => simp
      | none =>
          rw [h] at hexec
          simpa using hexec
    have hany : nb.cells.any (fun c => c.cell_type == "code" && firstRuleExecuted c) = true := by
      rw [List.any_eq_true]
      exact ⟨c, hmem, by simp [htype, hfirst]⟩
    simp [check_first_cell_execution, firstPollStep, hany]
  · simp [check_last_cell_execution, lastPollStep, hzero]

/-- C9 witness: the concrete fully-executed notebook and the concrete
code-free notebook, each observed once. -/
theorem C9_monitor_immediate_witness :
    spec_fullyExecuted nbDone ∧
    nbNoCode.cells.filter (fun c => c.cell_type == "code") = [] ∧
    check_first_cell_execution [.content nbDone] = true ∧
    check_last_cell_execution [.content nbNoCode] = false := by
  refine ⟨by decide, by decide, ?_⟩
  exact C9_monitor_immediate nbDone nbNoCode [] [] (by decide) (by decide)

/-- C3: with a (Python-truthy) owning username, both in-place entry points
fail with 404 when the path is missing or not a regular file, and with 403
when the canonicalized path is neither strictly inside nor equal to the
canonicalized home directory of that username; in both failure cases no
execution row is committed. -/
theorem C3_path_guard (fs : FS) (u : String) (execId : Nat)
    (input_path tmp_path : String) (origContent : Content) (origMeta : FileMeta)
    (tool : ToolOutcome) (t0 tw t1 : Int) (pollTrace : List FileObs)
    (hu : u ≠ "") :
    ((fs.pathExists input_path = false ∨ fs.isfile input_path = false) →
       validate_input_path fs (some u) input_path = .notFound ∧
       execute_notebook_sync fs (some u) execId input_path tmp_path origContent origMeta tool t0 t1 =
         .error .notFound ∧
       syncRecords (execute_notebook_sync fs (some u) execId input_path tmp_path origContent origMeta tool t0 t1) = [] ∧
       execute_user_notebook fs (some u) execId input_path tmp_path origContent origMeta tool t0 tw t1 pollTrace =
         .error .notFound ∧
       asyncRecords (execute_user_notebook fs (some u) execId input_path tmp_path origContent origMeta tool t0 tw t1 pollTrace) = []) ∧
    (fs.pathExists input_path = true → fs.isfile input_path = true →
     (fs.realpath input_path).startsWith (fs.realpath ("/home/" ++ u) ++ "/") = false →
     fs.realpath input_path ≠ fs.realpath ("/home/" ++ u) →
       validate_input_path fs (some u) input_path = .forbidden ∧
       execute_notebook_sync fs (some u) execId input_path tmp_path origContent origMeta tool t0 t1 =
         .error .forbidden ∧
       syncRecords (execute_notebook_sync fs (some u) execId input_path tmp_path origContent origMeta tool t0 t1) = [] ∧
       execute_user_notebook fs (some u) execId input_path tmp_path origContent origMeta tool t0 tw t1 pollTrace =
         .error .forbidden ∧
       asyncRecords (execute_user_notebook fs (some u) execId input_path tmp_path origContent origMeta tool t0 tw t1 pollTrace) = []) := by
  constructor
  · intro h
    have hguard : validate_input_path fs (some u) input_path = .notFound := by
      unfold validate_input_path
      rcases h with h | h <;> simp [h]
    refine ⟨hguard, ?_, ?_, ?_, ?_⟩ <;>
      simp [execute_notebook_sync, execute_user_notebook, syncRecords, asyncRecords, hguard]
  · intro hex hf hpre hne
    have hguard : validate_input_path fs (some u) input_path = .forbidden := by
      unfold validate_input_path
      simp [hex, hf, hu, hpre, hne]
    refine ⟨hguard, ?_, ?_, ?_, ?_⟩ <;>
      simp [execute_notebook_sync, execute_user_notebook, syncRecords, asyncRecords, hguard]

/-- C3 witness: a missing file yields 404 with no row; an existing path whose
canonical target escapes `/home/alice` yields 403 with no row. -/
theorem C3_path_guard_witness :
    "alice" ≠ "" ∧
    fsAbsent.pathExists "/nope.ipynb" = false ∧
    validate_input_path fsAbsent (some "alice") "/nope.ipynb" = .notFound ∧
    syncRecords (execute_notebook_sync fsAbsent (some "alice") 7 "/nope.ipynb" "/tmpX.ipynb"
      (.notebook nbUnrun) meta0 (.success nbDone metaTool) 0 5) = [] ∧
    fsEscape.realpath "/home/alice/link.ipynb" = "/etc/shadow" ∧
    validate_input_path fsEscape (some "alice") "/home/alice/link.ipynb" = .forbidden ∧
    asyncRecords (execute_user_notebook fsEscape (some "alice") 7 "/home/alice/link.ipynb" "/tmpX.ipynb"
      (.notebook nbUnrun) meta0 (.success nbDone metaTool) 0 1 5 []) = [] := by
  have h404 := (C3_path_guard fsAbsent "alice" 7 "/nope.ipynb" "/tmpX.ipynb"
    (.notebook nbUnrun) meta0 (.success nbDone metaTool) 0 1 5 [] (by decide)).1
    (Or.inl rfl)
  have h403 := (C3_path_guard fsEscape "alice" 7 "/home/alice/link.ipynb" "/tmpX.ipynb"
    (.notebook nbUnrun) meta0 (.success nbDone metaTool) 0 1 5 [] (by decide)).2
    rfl rfl (by decide) (by decide)
  exact ⟨by decide, rfl, h404.1, h404.2.2.1, by decide, h403.1, h403.2.2.2.2⟩

/-- C10: when no username accompanies the request, neither in-place entry
point performs any sandbox containment check — every path that exists and is
a regular file passes validation (whatever `realpath` does) and execution
proceeds; the username inferred from the path feeds only informational
fields, so neither the response nor the final file state depends on it. -/
theorem C10_no_username_no_sandbox (fs : FS) (execId : Nat)
    (input_path tmp_path : String) (origContent : Content) (origMeta : FileMeta)
    (tool : ToolOutcome) (t0 tw t1 : Int) (pollTrace : List FileObs)
    (hex : fs.pathExists input_path = true) (hf : fs.isfile input_path = true) :
    validate_input_path fs none input_path = .ok (extract_username input_path) ∧
    execute_notebook_sync fs none execId input_path tmp_path origContent origMeta tool t0 t1 =
      .ok (sync_after_guard execId (extract_username input_path) input_path tmp_path
            origContent origMeta tool t0 t1) ∧
    (∃ o, execute_user_notebook fs none execId input_path tmp_path origContent origMeta tool t0 tw t1 pollTrace = .ok o) ∧
    (∀ u₁ u₂ : String,
      (sync_after_guard execId u₁ input_path tmp_path origContent origMeta tool t0 t1).response =
        (sync_after_guard execId u₂ input_path tmp_path origContent origMeta tool t0 t1).response ∧
      (sync_after_guard execId u₁ input_path tmp_path origContent origMeta tool t0 t1).finalContent =
        (sync_after_guard execId u₂ input_path tmp_path origContent origMeta tool t0 t1).finalContent ∧
      (sync_after_guard execId u₁ input_path tmp_path origContent origMeta tool t0 t1).finalMeta =
        (sync_after_guard execId u₂ input_path tmp_path origContent origMeta tool t0 t1).finalMeta) := by
  have hguard : validate_input_path fs none input_path = .ok (extract_username input_path) := by
    unfold validate_input_path
    simp [hex, hf]
  refine ⟨hguard, ?_, ?_, ?_⟩
  · simp [execute_notebook_sync, hguard]
  · unfold execute_user_notebook
    rw [hguard]
    exact ⟨_, rfl⟩
  · intro u₁ u₂
    cases tool with
    | success result tmpMeta => exact ⟨rfl, rfl, rfl⟩
    | failure err tmpContent tmpMeta => exact ⟨rfl, rfl, rfl⟩

/-- C10 witness: with no username, `/etc/passwd` — far outside any home
directory — passes validation and both entry points proceed to execution. -/
theorem C10_no_username_no_sandbox_witness :
    fsOpen.pathExists "/etc/passwd" = true ∧
    fsOpen.isfile "/etc/passwd" = true ∧
    validate_input_path fsOpen none "/etc/passwd" = .ok (extract_username "/etc/passwd") ∧
    execute_notebook_sync fsOpen none 3 "/etc/passwd" "/tmpY.ipynb" (.notebook nbUnrun) meta0
        (.success nbDone metaTool) 0 5 =
      .ok (sync_after_guard 3 (extract_username "/etc/passwd") "/etc/passwd" "/tmpY.ipynb"
            (.notebook nbUnrun) meta0 (.success nbDone metaTool) 0 5) ∧
    (∃ o, execute_user_notebook fsOpen none 3 "/etc/passwd" "/tmpY.ipynb" (.notebook nbUnrun) meta0
            (.success nbDone metaTool) 0 1 5 [] = .ok o) := by
  have h := C10_no_username_no_sandbox fsOpen 3 "/etc/passwd" "/tmpY.ipynb" (.notebook nbUnrun)
    meta0 (.success nbDone metaTool) 0 1 5 [] rfl rfl
  exact ⟨rfl, rfl, h.1, h.2.1, h.2.2.1⟩

/-- C4: after any Atomic Replace that installs new content at the input path
— sync success, sync partial-failure replace, or async success — and equally
when the input is left untouched, the owner, group and permission bits of the
input path equal the bits recorded from the original file before execution,
whatever bits the tool's process left on the temporary file. -/
theorem C4_ownership_preserved (execId : Nat) (username input_path tmp_path : String)
    (origContent : Content) (origMeta : FileMeta) (tool : ToolOutcome)
    (rec0 : ExecRecord) (t0 tw t1 : Int) :
    (sync_after_guard execId username input_path tmp_path origContent origMeta tool t0 t1).finalMeta = origMeta ∧
    (execute_inplace_background rec0 input_path origContent origMeta tool tw t1).finalMeta = origMeta := by
  constructor
  · cases tool with
    | success result tmpMeta => rfl
    | failure err tmpContent tmpMeta =>
        simp only [sync_after_guard]
        split <;> rfl
  · cases tool with
    | success result tmpMeta => rfl
    | failure err tmpContent tmpMeta => rfl

/-- C5: for every submission that passes the guard, the `/execute` endpoint
reports status `started` with the execution row id, and its response is
identical whatever the tool outcome turns out to be — an execution-tool
failure is never surfaced in the call's own response and is observable only
through the polled execution row. -/
theorem C5_async_never_surfaces_failure (fs : FS) (req_username : Option String)
    (username : String) (execId : Nat) (input_path tmp_path : String)
    (origContent : Content) (origMeta : FileMeta) (tool tool' : ToolOutcome)
    (t0 tw t1 : Int) (pollTrace : List FileObs)
    (hok : validate_input_path fs req_username input_path = .ok username) :
    (execute_user_notebook fs req_username execId input_path tmp_path origContent origMeta tool t0 tw t1 pollTrace).map
        (fun o => (o.response.status, o.response.execution_id)) = .ok ("started", execId) ∧
    (execute_user_notebook fs req_username execId input_path tmp_path origContent origMeta tool t0 tw t1 pollTrace).map
        AsyncOutcome.response =
      (execute_user_notebook fs req_username execId input_path tmp_path origContent origMeta tool' t0 tw t1 pollTrace).map
        AsyncOutcome.response := by
  unfold execute_user_notebook
  rw [hok]
  exact ⟨rfl, rfl⟩

/-- C5 witness: the very submission whose background execution fails still
answers `started` with the row id, with the same response a succeeding run
would get. -/
theorem C5_async_never_surfaces_failure_witness :
    validate_input_path fsOpen none "/home/alice/a.ipynb" =
      .ok (extract_username "/home/alice/a.ipynb") ∧
    (execute_user_notebook fsOpen none 9 "/home/alice/a.ipynb" "/home/alice/tmpZ.ipynb"
        (.notebook nbUnrun) meta0 (.failure "boom" .empty metaTool) 0 1 5 []).map
        (fun o => (o.response.status, o.response.execution_id)) = .ok ("started", 9) ∧
    (execute_user_notebook fsOpen none 9 "/home/alice/a.ipynb" "/home/alice/tmpZ.ipynb"
        (.notebook nbUnrun) meta0 (.failure "boom" .empty metaTool) 0 1 5 []).map
        AsyncOutcome.response =
      (execute_user_notebook fsOpen none 9 "/home/alice/a.ipynb" "/home/alice/tmpZ.ipynb"
        (.notebook nbUnrun) meta0 (.success nbDone metaTool) 0 1 5 []).map
        AsyncOutcome.response := by
  have hok : validate_input_path fsOpen none "/home/alice/a.ipynb" =
      .ok (extract_username "/home/alice/a.ipynb") := by
    simp [validate_input_path, fsOpen]
  have h := C5_async_never_surfaces_failure fsOpen none (extract_username "/home/alice/a.ipynb")
    9 "/home/alice/a.ipynb"
    "/home/alice/tmpZ.ipynb" (.notebook nbUnrun) meta0 (.failure "boom" .empty metaTool)
    (.success nbDone metaTool) 0 1 5 [] hok
  exact ⟨hok, h.1, h.2⟩

/-- C1 counterexample: when papermill fails after one cell executed, the
sync endpoint replaces the input content with the half-executed notebook
and returns failure with the partial-output flag set — so the claimed
two-way disjunction (content unchanged + failure + no partial flag, or
success) is false at this input. -/
theorem C1_sync_two_way_counterexample :
    ¬(((sync_after_guard 1 "alice" "/home/alice/a.ipynb" "/home/alice/tmpA.ipynb"
          (.notebook nbUnrun) meta0 (.failure "CellExecutionError" (.notebook nbHalf) metaTool)
          0 5).finalContent = .notebook nbUnrun ∧
       (sync_after_guard 1 "alice" "/home/alice/a.ipynb" "/home/alice/tmpA.ipynb"
          (.notebook nbUnrun) meta0 (.failure "CellExecutionError" (.notebook nbHalf) metaTool)
          0 5).response.status = "failed" ∧
       (sync_after_guard 1 "alice" "/home/alice/a.ipynb" "/home/alice/tmpA.ipynb"
          (.notebook nbUnrun) meta0 (.failure "CellExecutionError" (.notebook nbHalf) metaTool)
          0 5).response.notebook_updated = some false) ∨
      (sync_after_guard 1 "alice" "/home/alice/a.ipynb" "/home/alice/tmpA.ipynb"
          (.notebook nbUnrun) meta0 (.failure "CellExecutionError" (.notebook nbHalf) metaTool)
          0 5).response.status = "success") := by
  decide

/-- C1 (amended): every sync call past the guard ends in exactly one of
three ways — success installing the tool's completed output (no partial
flag key in the response), failure leaving the content untouched with
partial flag false, or failure installing a temp notebook with at least one
executed code cell with partial flag true; and in every case the content of
the input path only ever jumps in one `os.replace` step from the original
value to the final value (no intermediate state ever exists). -/
theorem C1_sync_trichotomy (execId : Nat) (username input_path tmp_path : String)
    (origContent : Content) (origMeta : FileMeta) (tool : ToolOutcome) (t0 t1 : Int) :
    ((sync_after_guard execId username input_path tmp_path origContent origMeta tool t0 t1).contentHistory =
        [origContent] ∨
     (sync_after_guard execId username input_path tmp_path origContent origMeta tool t0 t1).contentHistory =
        [origContent,
         (sync_after_guard execId username input_path tmp_path origContent origMeta tool t0 t1).finalContent]) ∧
    ((∃ nb m, tool = .success nb m ∧
        (sync_after_guard execId username input_path tmp_path origContent origMeta tool t0 t1).response.status = "success" ∧
        (sync_after_guard execId username input_path tmp_path origContent origMeta tool t0 t1).response.error_message = none ∧
        (sync_after_guard execId username input_path tmp_path origContent origMeta tool t0 t1).response.notebook_updated = none ∧
        (sync_after_guard execId username input_path tmp_path origContent origMeta tool t0 t1).finalContent = .notebook nb) ∨
     ((sync_after_guard execId username input_path tmp_path origContent origMeta tool t0 t1).response.status = "failed" ∧
      (sync_after_guard execId username input_path tmp_path origContent origMeta tool t0 t1).response.notebook_updated = some false ∧
      (sync_after_guard execId username input_path tmp_path origContent origMeta tool t0 t1).finalContent = origContent) ∨
     (∃ nb err m, tool = .failure err (.notebook nb) m ∧
        nb.cells.any (fun c => c.cell_type == "code" && syncInspectExecuted c) = true ∧
        (sync_after_guard execId username input_path tmp_path origContent origMeta tool t0 t1).response.status = "failed" ∧
        (sync_after_guard execId username input_path tmp_path origContent origMeta tool t0 t1).response.error_message = some err ∧
        (sync_after_guard execId username input_path tmp_path origContent origMeta tool t0 t1).response.notebook_updated = some true ∧
        (sync_after_guard execId username input_path tmp_path origContent origMeta tool t0 t1).finalContent = .notebook nb)) := by
  cases tool with
  | success nb m =>
      exact ⟨Or.inr rfl, Or.inl ⟨nb, m, rfl, rfl, rfl, rfl, rfl⟩⟩
  | failure err tmpC m =>
      cases tmpC with
      | empty => exact ⟨Or.inl rfl, Or.inr (Or.inl ⟨rfl, rfl, rfl⟩)⟩
      | invalid => exact ⟨Or.inl rfl, Or.inr (Or.inl ⟨rfl, rfl, rfl⟩)⟩
      | notebook nb =>
          by_cases h : nb.cells.any (fun c => c.cell_type == "code" && syncInspectExecuted c) = true
          · refine ⟨Or.inr ?_, Or.inr (Or.inr ⟨nb, err, m, rfl, h, ?_, ?_, ?_, ?_⟩)⟩ <;>
              simp [sync_after_guard, h]
          · have h' : nb.cells.any (fun c => c.cell_type == "code" && syncInspectExecuted c) = false := by
              simpa using h
            refine ⟨Or.inl ?_, Or.inr (Or.inl ⟨?_, ?_, ?_⟩)⟩ <;>
              simp [sync_after_guard, h']

/-- C2 counterexample: in asynchronous mode, papermill fails leaving a
non-empty, valid temp notebook whose first cell shows execution — yet the
worker removes the temp file and leaves the input path untouched, installing
no partial result, contrary to the claimed behavior for both modes. -/
theorem C2_failure_handling_counterexample :
    nbHalf.cells.any (fun c => c.cell_type == "code" && syncInspectExecuted c) = true ∧
    nbHalf.cells.any (fun c => spec_unitExecuted c) = true ∧
    (execute_inplace_background
        ⟨11, "alice", "/home/alice/a.ipynb", "/home/alice/tmpB.ipynb", "pending", none, none, 0, none⟩
        "/home/alice/a.ipynb" (.notebook nbUnrun) meta0
        (.failure "boom" (.notebook nbHalf) metaTool) 1 6).finalContent = .notebook nbUnrun ∧
    (execute_inplace_background
        ⟨11, "alice", "/home/alice/a.ipynb", "/home/alice/tmpB.ipynb", "pending", none, none, 0, none⟩
        "/home/alice/a.ipynb" (.notebook nbUnrun) meta0
        (.failure "boom" (.notebook nbHalf) metaTool) 1 6).tmpRemains = false ∧
    Content.notebook nbUnrun ≠ Content.notebook nbHalf := by
  decide

/-- C2 (amended): on a papermill failure, in synchronous mode a non-empty
loadable temp notebook with at least one code cell passing the
counter-present-or-outputs inspection is chowned/chmodded and atomically
swapped over the input while failure is still reported with the partial flag
set; a loadable temp notebook with no such cell is removed and the input is
untouched; an unreadable temp file is removed and the input untouched; an
empty temp file is left on disk (skipping the removal) with the input
untouched.  In asynchronous mode a failure always removes the temp file and
never installs a partial result, whatever the temp file holds. -/
theorem C2_failure_handling (execId : Nat) (username input_path tmp_path : String)
    (origContent : Content) (origMeta : FileMeta) (err : String) (metaT : FileMeta)
    (rec0 : ExecRecord) (tmpC : Content) (t0 tw t1 : Int) (nbGood nbIdle : Notebook)
    (hgood : nbGood.cells.any (fun c => c.cell_type == "code" && syncInspectExecuted c) = true)
    (hidle : nbIdle.cells.any (fun c => c.cell_type == "code" && syncInspectExecuted c) = false) :
    ((sync_after_guard execId username input_path tmp_path origContent origMeta
        (.failure err (.notebook nbGood) metaT) t0 t1).finalContent = .notebook nbGood ∧
     (sync_after_guard execId username input_path tmp_path origContent origMeta
        (.failure err (.notebook nbGood) metaT) t0 t1).finalMeta = origMeta ∧
     (sync_after_guard execId username input_path tmp_path origContent origMeta
        (.failure err (.notebook nbGood) metaT) t0 t1).tmpRemains = false ∧
     (sync_after_guard execId username input_path tmp_path origContent origMeta
        (.failure err (.notebook nbGood) metaT) t0 t1).response.status = "failed" ∧
     (sync_after_guard execId username input_path tmp_path origContent origMeta
        (.failure err (.notebook nbGood) metaT) t0 t1).response.error_message = some err ∧
     (sync_after_guard execId username input_path tmp_path origContent origMeta
        (.failure err (.notebook nbGood) metaT) t0 t1).response.notebook_updated = some true) ∧
    ((sync_after_guard execId username input_path tmp_path origContent origMeta
        (.failure err (.notebook nbIdle) metaT) t0 t1).finalContent = origContent ∧
     (sync_after_guard execId username input_path tmp_path origContent origMeta
        (.failure err (.notebook nbIdle) metaT) t0 t1).tmpRemains = false ∧
     (sync_after_guard execId username input_path tmp_path origContent origMeta
        (.failure err (.notebook nbIdle) metaT) t0 t1).response.notebook_updated = some false) ∧
    ((sync_after_guard execId username input_path tmp_path origContent origMeta
        (.failure err .invalid metaT) t0 t1).finalContent = origContent ∧
     (sync_after_guard execId username input_path tmp_path origContent origMeta
        (.failure err .invalid metaT) t0 t1).tmpRemains = false) ∧
    ((sync_after_guard execId username input_path tmp_path origContent origMeta
        (.failure err .empty metaT) t0 t1).finalContent = origContent ∧
     (sync_after_guard execId username input_path tmp_path origContent origMeta
        (.failure err .empty metaT) t0 t1).tmpRemains = true) ∧
    ((execute_inplace_background rec0 input_path origContent origMeta
        (.failure err tmpC metaT) tw t1).finalContent = origContent ∧
     (execute_inplace_background rec0 input_path origContent origMeta
        (.failure err tmpC metaT) tw t1).finalMeta = origMeta ∧
     (execute_inplace_background rec0 input_path origContent origMeta
        (.failure err tmpC metaT) tw t1).tmpRemains = false) := by
  refine ⟨⟨?_, ?_, ?_, ?_, ?_, ?_⟩, ⟨?_, ?_, ?_⟩, ⟨rfl, rfl⟩, ⟨rfl, rfl⟩, ⟨rfl, rfl, rfl⟩⟩ <;>
    simp [sync_after_guard, hgood, hidle]

/-- C2 witness: the amended failure-handling behavior at concrete inputs —
`nbHalf` is salvageable in sync mode, `nbUnrun` shows no progress, and the
async worker discards even the salvageable `nbHalf`. -/
theorem C2_failure_handling_witness :
    nbHalf.cells.any (fun c => c.cell_type == "code" && syncInspectExecuted c) = true ∧
    nbUnrun.cells.any (fun c => c.cell_type == "code" && syncInspectExecuted c) = false ∧
    (sync_after_guard 4 "alice" "/home/alice/a.ipynb" "/home/alice/tmpC.ipynb"
        (.notebook nbUnrun) meta0 (.failure "boom" (.notebook nbHalf) metaTool) 0 5).finalContent =
      .notebook nbHalf ∧
    (sync_after_guard 4 "alice" "/home/alice/a.ipynb" "/home/alice/tmpC.ipynb"
        (.notebook nbUnrun) meta0 (.failure "boom" (.notebook nbUnrun) metaTool) 0 5).finalContent =
      .notebook nbUnrun ∧
    (sync_after_guard 4 "alice" "/home/alice/a.ipynb" "/home/alice/tmpC.ipynb"
        (.notebook nbUnrun) meta0 (.failure "boom" .empty metaTool) 0 5).tmpRemains = true ∧
    (execute_inplace_background
        ⟨4, "alice", "/home/alice/a.ipynb", "/home/alice/tmpC.ipynb", "pending", none, none, 0, none⟩
        "/home/alice/a.ipynb" (.notebook nbUnrun) meta0
        (.failure "boom" (.notebook nbHalf) metaTool) 1 5).finalContent = .notebook nbUnrun := by
  have h := C2_failure_handling 4 "alice" "/home/alice/a.ipynb" "/home/alice/tmpC.ipynb"
    (.notebook nbUnrun) meta0 "boom" metaTool
    ⟨4, "alice", "/home/alice/a.ipynb", "/home/alice/tmpC.ipynb", "pending", none, none, 0, none⟩
    (.notebook nbHalf) 0 1 5 nbHalf nbUnrun (by decide) (by decide)
  exact ⟨by decide, by decide, h.1.1, h.2.1.1, h.2.2.2.1.2, h.2.2.2.2.1⟩

/-- A record trace is monotone as soon as the chain condition holds on its
status strings. -/
theorem monotoneTrace_of_statuses (tr : List ExecRecord)
    (h : List.Chain' (fun a b => statusRank a < statusRank b) (tr.map ExecRecord.status)) :
    monotoneTrace tr := by
  unfold monotoneTrace
  exact (List.chain'_map ExecRecord.status).mp h

/-- C6 counterexample: the sync endpoint's execution row is **created** with
status `running` (set_params.py:812) — its first committed state is not
`pending`, so not every record is created pending before work begins. -/
theorem C6_created_pending_counterexample :
    ((sync_after_guard 2 "alice" "/home/alice/a.ipynb" "/home/alice/tmpD.ipynb"
        (.notebook nbUnrun) meta0 (.success nbDone metaTool) 0 5).recordTrace.map
        ExecRecord.status).head? = some "running" ∧
    "running" ≠ "pending" := by
  decide

/-- C6 (amended): rows created by the async endpoints start as `pending` and
their committed status sequence is `pending, running, terminal`; the sync
endpoint creates its row directly in `running` and commits `running,
terminal`.  In all three flows the committed sequence strictly ascends the
`pending → running → terminal` order, so no state is ever revisited and
terminal states are never left. -/
theorem C6_state_machine (fs : FS) (req_username : Option String) (username : String)
    (execId : Nat) (input_path tmp_path out_path : String) (origContent : Content)
    (origMeta : FileMeta) (tool : ToolOutcome) (t0 tw t1 : Int) (pollTrace : List FileObs)
    (hok : validate_input_path fs req_username input_path = .ok username) :
    (∃ s, terminalStatus s ∧
       (sync_after_guard execId username input_path tmp_path origContent origMeta tool t0 t1).recordTrace.map
           ExecRecord.status = ["running", s] ∧
       monotoneTrace
         (sync_after_guard execId username input_path tmp_path origContent origMeta tool t0 t1).recordTrace) ∧
    (∃ o s, execute_user_notebook fs req_username execId input_path tmp_path origContent origMeta tool t0 tw t1 pollTrace = .ok o ∧
       terminalStatus s ∧
       o.recordTrace.map ExecRecord.status = ["pending", "running", s] ∧
       monotoneTrace o.recordTrace) ∧
    ((execute_notebook_record0 execId input_path out_path t0).status = "pending" ∧
     ∃ s, terminalStatus s ∧
       (execute_notebook_record0 execId input_path out_path t0 ::
          execute_notebook_background (execute_notebook_record0 execId input_path out_path t0) tool tw t1).map
           ExecRecord.status = ["pending", "running", s] ∧
       monotoneTrace
         (execute_notebook_record0 execId input_path out_path t0 ::
            execute_notebook_background (execute_notebook_record0 execId input_path out_path t0) tool tw t1)) := by
  refine ⟨?_, ?_, rfl, ?_⟩
  · cases tool with
    | success nb m =>
        refine ⟨"success", Or.inl rfl, rfl, monotoneTrace_of_statuses _ ?_⟩
        show List.Chain' (fun a b => statusRank a < statusRank b) ["running", "success"]
        exact List.chain'_cons.mpr ⟨by decide, List.chain'_singleton _⟩
    | failure err c m =>
        refine ⟨"failed", Or.inr rfl, rfl, monotoneTrace_of_statuses _ ?_⟩
        show List.Chain' (fun a b => statusRank a < statusRank b) ["running", "failed"]
        exact List.chain'_cons.mpr ⟨by decide, List.chain'_singleton _⟩
  · unfold execute_user_notebook
    rw [hok]
    cases tool with
    | success nb m =>
        refine ⟨_, "success", rfl, Or.inl rfl, rfl, monotoneTrace_of_statuses _ ?_⟩
        show List.Chain' (fun a b => statusRank a < statusRank b) ["pending", "running", "success"]
        exact List.chain'_cons.mpr ⟨by decide, List.chain'_cons.mpr ⟨by decide, List.chain'_singleton _⟩⟩
    | failure err c m =>
        refine ⟨_, "failed", rfl, Or.inr rfl, rfl, monotoneTrace_of_statuses _ ?_⟩
        show List.Chain' (fun a b => statusRank a < statusRank b) ["pending", "running", "failed"]
        exact List.chain'_cons.mpr ⟨by decide, List.chain'_cons.mpr ⟨by decide, List.chain'_singleton _⟩⟩
  · cases tool with
    | success nb m =>
        refine ⟨"success", Or.inl rfl, rfl, monotoneTrace_of_statuses _ ?_⟩
        show List.Chain' (fun a b => statusRank a < statusRank b) ["pending", "running", "success"]
        exact List.chain'_cons.mpr ⟨by decide, List.chain'_cons.mpr ⟨by decide, List.chain'_singleton _⟩⟩
    | failure err c m =>
        refine ⟨"failed", Or.inr rfl, rfl, monotoneTrace_of_statuses _ ?_⟩
        show List.Chain' (fun a b => statusRank a < statusRank b) ["pending", "running", "failed"]
        exact List.chain'_cons.mpr ⟨by decide, List.chain'_cons.mpr ⟨by decide, List.chain'_singleton _⟩⟩

/-- C6 witness: a concrete successful run in each mode, showing the sync row
born `running` and the async row born `pending`, each trace monotone. -/
theorem C6_state_machine_witness :
    validate_input_path fsOpen none "/home/alice/a.ipynb" =
      .ok (extract_username "/home/alice/a.ipynb") ∧
    (∃ s, terminalStatus s ∧
       (sync_after_guard 5 (extract_username "/home/alice/a.ipynb") "/home/alice/a.ipynb"
           "/home/alice/tmpE.ipynb" (.notebook nbUnrun) meta0 (.success nbDone metaTool)
           0 5).recordTrace.map ExecRecord.status = ["running", s] ∧
       monotoneTrace
         (sync_after_guard 5 (extract_username "/home/alice/a.ipynb") "/home/alice/a.ipynb"
           "/home/alice/tmpE.ipynb" (.notebook nbUnrun) meta0 (.success nbDone metaTool)
           0 5).recordTrace) ∧
    (∃ o s, execute_user_notebook fsOpen none 5 "/home/alice/a.ipynb" "/home/alice/tmpE.ipynb"
          (.notebook nbUnrun) meta0 (.success nbDone metaTool) 0 1 5 [] = .ok o ∧
       terminalStatus s ∧
       o.recordTrace.map ExecRecord.status = ["pending", "running", s] ∧
       monotoneTrace o.recordTrace) := by
  have hok : validate_input_path fsOpen none "/home/alice/a.ipynb" =
      .ok (extract_username "/home/alice/a.ipynb") := by
    simp [validate_input_path, fsOpen]
  have h := C6_state_machine fsOpen none (extract_username "/home/alice/a.ipynb") 5
    "/home/alice/a.ipynb" "/home/alice/tmpE.ipynb" "/out.ipynb" (.notebook nbUnrun) meta0
    (.success nbDone metaTool) 0 1 5 [] hok
  exact ⟨hok, h.1, h.2.1⟩

/-- C7: in every flow, each committed row state satisfies: the error message
is present only in the `failed` state; whenever the completion timestamp is
present the elapsed seconds equal completion minus the row's start timestamp;
and the row's output path still names the temp file unless the row is in the
`success` state, in which case it names the input path and the atomic swap
has installed the tool's result there (in the `/execute-notebook` flow the
output path is caller-chosen and never changes). -/
theorem C7_record_invariants (fs : FS) (req_username : Option String) (username : String)
    (execId : Nat) (input_path tmp_path out_path : String) (origContent : Content)
    (origMeta : FileMeta) (tool : ToolOutcome) (t0 tw t1 : Int) (pollTrace : List FileObs)
    (hok : validate_input_path fs req_username input_path = .ok username) :
    (∀ r ∈ (sync_after_guard execId username input_path tmp_path origContent origMeta tool t0 t1).recordTrace,
        (r.error_message.isSome = true → r.status = "failed") ∧
        (∀ c, r.completed_at = some c → r.execution_time_seconds = some (c - r.started_at)) ∧
        (r.output_path = tmp_path ∨
          (r.status = "success" ∧ r.output_path = input_path ∧
           ∃ nb m, tool = .success nb m ∧
             (sync_after_guard execId username input_path tmp_path origContent origMeta tool t0 t1).finalContent =
               .notebook nb))) ∧
    (∀ o, execute_user_notebook fs req_username execId input_path tmp_path origContent origMeta tool t0 tw t1 pollTrace = .ok o →
       ∀ r ∈ o.recordTrace,
        (r.error_message.isSome = true → r.status = "failed") ∧
        (∀ c, r.completed_at = some c → r.execution_time_seconds = some (c - r.started_at)) ∧
        (r.output_path = tmp_path ∨
          (r.status = "success" ∧ r.output_path = input_path ∧
           ∃ nb m, tool = .success nb m ∧ o.finalContent = .notebook nb))) ∧
    (∀ r ∈ (execute_notebook_record0 execId input_path out_path t0 ::
             execute_notebook_background (execute_notebook_record0 execId input_path out_path t0) tool tw t1),
        (r.error_message.isSome = true → r.status = "failed") ∧
        (∀ c, r.completed_at = some c → r.execution_time_seconds = some (c - r.started_at)) ∧
        r.output_path = out_path) := by
  cases tool with
  | success nb m =>
      refine ⟨?_, ?_, ?_⟩
      · intro r hr
        simp only [sync_after_guard, List.mem_cons, List.not_mem_nil, or_false] at hr
        rcases hr with rfl | rfl
        · exact ⟨fun h => Bool.noConfusion h, fun c hc => Option.noConfusion hc, Or.inl rfl⟩
        · refine ⟨fun h => Bool.noConfusion h, ?_, Or.inr ⟨rfl, rfl, nb, m, rfl, rfl⟩⟩
          intro c hc
          injection hc with h
          subst h
          rfl
      · intro o ho
        unfold execute_user_notebook at ho
        rw [hok] at ho
        injection ho with ho
        subst ho
        intro r hr
        simp only [execute_inplace_background, List.mem_cons, List.not_mem_nil, or_false] at hr
        rcases hr with rfl | rfl | rfl
        · exact ⟨fun h => Bool.noConfusion h, fun c hc => Option.noConfusion hc, Or.inl rfl⟩
        · exact ⟨fun h => Bool.noConfusion h, fun c hc => Option.noConfusion hc, Or.inl rfl⟩
        · refine ⟨fun h => Bool.noConfusion h, ?_, Or.inr ⟨rfl, rfl, nb, m, rfl, rfl⟩⟩
          intro c hc
          injection hc with h
          subst h
          rfl
      · intro r hr
        simp only [execute_notebook_background, execute_notebook_record0, List.mem_cons,
          List.not_mem_nil, or_false] at hr
        rcases hr with rfl | rfl | rfl
        · exact ⟨fun h => Bool.noConfusion h, fun c hc => Option.noConfusion hc, rfl⟩
        · exact ⟨fun h => Bool.noConfusion h, fun c hc => Option.noConfusion hc, rfl⟩
        · refine ⟨fun h => Bool.noConfusion h, ?_, rfl⟩
          intro c hc
          injection hc with h
          subst h
          rfl
  | failure err tmpC m =>
      refine ⟨?_, ?_, ?_⟩
      · intro r hr
        simp only [sync_after_guard, List.mem_cons, List.not_mem_nil, or_false] at hr
        rcases hr with rfl | rfl
        · exact ⟨fun h => Bool.noConfusion h, fun c hc => Option.noConfusion hc, Or.inl rfl⟩
        · refine ⟨fun _ => rfl, ?_, Or.inl rfl⟩
          intro c hc
          injection hc with h
          subst h
          rfl
      · intro o ho
        unfold execute_user_notebook at ho
        rw [hok] at ho
        injection ho with ho
        subst ho
        intro r hr
        simp only [execute_inplace_background, List.mem_cons, List.not_mem_nil, or_false] at hr
        rcases hr with rfl | rfl | rfl
        · exact ⟨fun h => Bool.noConfusion h, fun c hc => Option.noConfusion hc, Or.inl rfl⟩
        · exact ⟨fun h => Bool.noConfusion h, fun c hc => Option.noConfusion hc, Or.inl rfl⟩
        · refine ⟨fun _ => rfl, ?_, Or.inl rfl⟩
          intro c hc
          injection hc with h
          subst h
          rfl
      · intro r hr
        simp only [execute_notebook_background, execute_notebook_record0, List.mem_cons,
          List.not_mem_nil, or_false] at hr
        rcases hr with rfl | rfl | rfl
        · exact ⟨fun h => Bool.noConfusion h, fun c hc => Option.noConfusion hc, rfl⟩
        · exact ⟨fun h => Bool.noConfusion h, fun c hc => Option.noConfusion hc, rfl⟩
        · refine ⟨fun _ => rfl, ?_, rfl⟩
          intro c hc
          injection hc with h
          subst h
          rfl

/-- C7 witness: the failed row of a concrete sync run is in the committed
trace and satisfies every invariant — error only with `failed`, elapsed =
completion − start, output path still the temp path. -/
theorem C7_record_invariants_witness :
    validate_input_path fsOpen none "/home/alice/a.ipynb" =
      .ok (extract_username "/home/alice/a.ipynb") ∧
    ExecRecord.mk 6 (extract_username "/home/alice/a.ipynb") "/home/alice/a.ipynb"
        "/home/alice/tmpF.ipynb" "failed" (some "boom") (some 5) 0 (some 5) ∈
      (sync_after_guard 6 (extract_username "/home/alice/a.ipynb") "/home/alice/a.ipynb"
        "/home/alice/tmpF.ipynb" (.notebook nbUnrun) meta0
        (.failure "boom" (.notebook nbHalf) metaTool) 0 5).recordTrace ∧
    ((ExecRecord.mk 6 (extract_username "/home/alice/a.ipynb") "/home/alice/a.ipynb"
        "/home/alice/tmpF.ipynb" "failed" (some "boom") (some 5) 0 (some 5)).error_message.isSome = true →
      (ExecRecord.mk 6 (extract_username "/home/alice/a.ipynb") "/home/alice/a.ipynb"
        "/home/alice/tmpF.ipynb" "failed" (some "boom") (some 5) 0 (some 5)).status = "failed") ∧
    (ExecRecord.mk 6 (extract_username "/home/alice/a.ipynb") "/home/alice/a.ipynb"
        "/home/alice/tmpF.ipynb" "failed" (some "boom") (some 5) 0 (some 5)).execution_time_seconds =
      some (5 - (ExecRecord.mk 6 (extract_username "/home/alice/a.ipynb") "/home/alice/a.ipynb"
        "/home/alice/tmpF.ipynb" "failed" (some "boom") (some 5) 0 (some 5)).started_at) ∧
    (ExecRecord.mk 6 (extract_username "/home/alice/a.ipynb") "/home/alice/a.ipynb"
        "/home/alice/tmpF.ipynb" "failed" (some "boom") (some 5) 0 (some 5)).output_path =
      "/home/alice/tmpF.ipynb" := by
  have hok : validate_input_path fsOpen none "/home/alice/a.ipynb" =
      .ok (extract_username "/home/alice/a.ipynb") := by
    simp [validate_input_path, fsOpen]
  have h := C7_record_invariants fsOpen none (extract_username "/home/alice/a.ipynb") 6
    "/home/alice/a.ipynb" "/home/alice/tmpF.ipynb" "/out.ipynb" (.notebook nbUnrun) meta0
    (.failure "boom" (.notebook nbHalf) metaTool) 0 1 5 [] hok
  have hmem : ExecRecord.mk 6 (extract_username "/home/alice/a.ipynb") "/home/alice/a.ipynb"
      "/home/alice/tmpF.ipynb" "failed" (some "boom") (some 5) 0 (some 5) ∈
      (sync_after_guard 6 (extract_username "/home/alice/a.ipynb") "/home/alice/a.ipynb"
        "/home/alice/tmpF.ipynb" (.notebook nbUnrun) meta0
        (.failure "boom" (.notebook nbHalf) metaTool) 0 5).recordTrace := by
    simp [sync_after_guard]
  have hp := h.1 _ hmem
  refine ⟨hok, hmem, hp.1, ?_, rfl⟩
  exact hp.2.1 5 rfl
